import Mathlib

/-!
Shallow embedding of the Ryokushen-Financial utility scripts
(`server.py`, `manage_server.py`, `create_favicon.py`) and proofs of the
behavioural properties stated about them.

External effects (socket binds, subprocess output, signal delivery,
library availability) are abstracted as explicit parameters: an
availability oracle `avail : Nat → Bool` for port probes, an
`Option String` for the stdout of the `lsof -ti :port` subprocess
(`none` models the subprocess raising / the utility being absent), and
booleans for whether a delivered signal call raises.
-/

/-! Models of the Python string/int builtins used by the scripts. -/

/-- Model of Python `str.strip()`: drop whitespace from both ends. -/
def pyStrip (s : String) : String :=
  String.mk (((s.data.dropWhile Char.isWhitespace).reverse.dropWhile Char.isWhitespace).reverse)

/-- Model of Python `str.endswith(pat)`: character-list suffix test. -/
def endswith (s pat : String) : Bool :=
  List.isSuffixOf pat.data s.data

/-- Model of Python `str.lower()` (ASCII range, which covers every use here). -/
def pyLower (s : String) : String :=
  String.mk (s.data.map Char.toLower)

/-- Digit-string to Nat: `some` exactly when the list is a nonempty run of
ASCII digits (the shapes `int(...)` accepts among the inputs arising here). -/
def pyDigitsToNat (l : List Char) : Option Nat :=
  if l ≠ [] ∧ l.all Char.isDigit then
    some (l.foldl (fun n c => n * 10 + (c.toNat - 48)) 0)
  else none

/-- Model of Python `int(s)` on an already-stripped string: an optional
leading minus sign followed by decimal digits; anything else (empty string,
embedded whitespace such as a second line of output, letters) raises
`ValueError`, modelled as `none`. -/
def pyInt (s : String) : Option Int :=
  match s.data with
  | '-' :: rest => (pyDigitsToNat rest).map (fun n => -(n : Int))
  | l => (pyDigitsToNat l).map (fun n => (n : Int))

/-! server.py -/

/-- server.py line 14: the default port. -/
def PORT : Nat := 8080

/-- The three CORS headers added unconditionally by
`MyHTTPRequestHandler.end_headers` (server.py lines 19-21), in order. -/
def corsHeaders : List (String × String) :=
  [("Access-Control-Allow-Origin", "*"),
   ("Access-Control-Allow-Methods", "GET, POST, OPTIONS"),
   ("Access-Control-Allow-Headers", "Content-Type")]

/-- The content-type override header sent for `.js` paths (server.py line 25). -/
def ctOverride : String × String :=
  ("Content-Type", "application/javascript")

/-- `MyHTTPRequestHandler.end_headers` (server.py lines 17-27): the handler
appends the three CORS headers to the already-buffered headers `pending`
(status-line headers and any content-type the base class chose), then the
JavaScript content-type override when `self.path` ends in `.js`, then
flushes.  The result is the full header list of the response. -/
def end_headers (path : String) (pending : List (String × String)) : List (String × String) :=
  pending ++ corsHeaders ++ (if endswith path ".js" then [ctOverride] else [])

/-- An HTTP response as observed on the wire: status, headers, body bytes. -/
structure HttpResponse where
  status : Nat
  headers : List (String × String)
  body : List Nat
deriving DecidableEq

/-- `MyHTTPRequestHandler.do_OPTIONS` (server.py lines 29-31):
`send_response(200)` then `end_headers()`, writing no body.  `basePending`
is whatever `send_response` buffered (Server and Date headers). -/
def do_OPTIONS (path : String) (basePending : List (String × String)) : HttpResponse :=
  { status := 200, headers := end_headers path basePending, body := [] }

/-- `check_port_available` (server.py lines 33-41): bind succeeds iff the
OS reports the port free; the bind outcome is the oracle `avail`. -/
def check_port_available (avail : Nat → Bool) (port : Nat) : Bool :=
  avail port

/-- `find_available_port` (server.py lines 43-49): scan
`start_port + i` for `i` in `range(max_attempts)`, returning the first
port whose probe succeeds, else `None`. -/
def find_available_port (avail : Nat → Bool) (start_port max_attempts : Nat) : Option Nat :=
  (List.range max_attempts).findSome? (fun i =>
    if check_port_available avail (start_port + i) then some (start_port + i) else none)

/-- `kill_existing_server` (server.py lines 51-68): run `lsof -ti :port`
(stdout modelled by `lsofOut`, `none` = the call raised); when the
stripped output is nonempty, parse it with `int(...)` and send SIGTERM
(`killOk` = the `os.kill` call did not raise).  Any exception is caught
and yields `False`; an empty stdout also yields `False`. -/
def kill_existing_server (lsofOut : Option String) (killOk : Bool) : Bool :=
  match lsofOut with
  | none => false
  | some out =>
    if pyStrip out ≠ "" then
      match pyInt (pyStrip out) with
      | some _ => killOk
      | none => false
    else false

/-- Outcome of the startup conflict-resolution block. -/
inductive StartupOutcome where
  | serve (port : Nat)
  | exitWithError
  | exitClean
deriving DecidableEq

/-- The `__main__` conflict-resolution flow of server.py (lines 85-104),
entered when the probe on `PORT` failed.  `rawChoice` is the operator
input (the code strips it), `killResult` is what `kill_existing_server`
returned when invoked for choice 1, `avail` is the bind oracle used by
the alternative-port scan.  When no branch matches, the code falls
through and tries to serve on the occupied `PORT`. -/
def resolve_port_conflict (rawChoice : String) (killResult : Bool) (avail : Nat → Bool) :
    StartupOutcome :=
  let choice0 := pyStrip rawChoice
  let choice1 := if choice0 = "1" then (if killResult then "1" else "2") else choice0
  if choice1 = "2" then
    match find_available_port avail (PORT + 1) 10 with
    | some p => StartupOutcome.serve p
    | none => StartupOutcome.exitWithError
  else if choice1 = "3" then StartupOutcome.exitClean
  else StartupOutcome.serve PORT

/-! manage_server.py -/

/-- `get_server_pid` (manage_server.py lines 17-26): run `lsof -ti :port`
(`lsofOut` is its stdout, `none` = the subprocess call raised / utility
absent); when the stripped output is nonempty, return `int(...)` of the
whole stripped output.  Every exception is caught and yields `None`. -/
def get_server_pid (lsofOut : Option String) : Option Int :=
  match lsofOut with
  | none => none
  | some out =>
    if pyStrip out ≠ "" then pyInt (pyStrip out) else none

/-- `is_server_running` (manage_server.py lines 28-30):
`get_server_pid(port) is not None`. -/
def is_server_running (lsofOut : Option String) : Bool :=
  (get_server_pid lsofOut).isSome

/-- Observable effects of one Server Manager command: its boolean return
value, how many server processes it launched via `Popen`, which PIDs it
sent SIGTERM, what it printed, and the port owner afterwards. -/
structure MgrResult where
  ok : Bool
  spawned : Nat
  signals : List Int
  messages : List String
  ownerAfter : Option Int
deriving DecidableEq

/-- `start_server` (manage_server.py lines 32-48).  `lsofBefore` is the
lookup output at entry, `lsofAfter` the output of the re-check two
seconds after `Popen` (only consulted when a spawn happens). -/
def start_server (lsofBefore lsofAfter : Option String) : MgrResult :=
  if is_server_running lsofBefore then
    { ok := false, spawned := 0, signals := [],
      messages := ["❌ Server is already running on port 8080",
                   "Use \x27./manage_server.py restart\x27 to restart it"],
      ownerAfter := get_server_pid lsofBefore }
  else if is_server_running lsofAfter then
    { ok := true, spawned := 1, signals := [],
      messages := ["Starting server on port 8080...",
                   "✅ Server started successfully at http://localhost:8080/"],
      ownerAfter := get_server_pid lsofAfter }
  else
    { ok := false, spawned := 1, signals := [],
      messages := ["Starting server on port 8080...",
                   "❌ Failed to start server"],
      ownerAfter := get_server_pid lsofAfter }

/-- `stop_server` (manage_server.py lines 50-64).  Python `if not pid:`
is truthiness, so `None` and PID `0` both take the not-running branch.
`killOk` models whether `os.kill(pid, SIGTERM)` raised; its exception
text is abstracted as a fixed marker. -/
def stop_server (lsofOut : Option String) (killOk : Bool) : MgrResult :=
  match get_server_pid lsofOut with
  | none =>
    { ok := false, spawned := 0, signals := [],
      messages := ["❌ No server is running"], ownerAfter := none }
  | some pid =>
    if pid = 0 then
      { ok := false, spawned := 0, signals := [],
        messages := ["❌ No server is running"], ownerAfter := some pid }
    else if killOk then
      { ok := true, spawned := 0, signals := [pid],
        messages := ["✅ Server stopped (PID: " ++ toString pid ++ ")"],
        ownerAfter := none }
    else
      { ok := false, spawned := 0, signals := [pid],
        messages := ["❌ Failed to stop server: <OSError>"],
        ownerAfter := some pid }

/-- `status_server` (manage_server.py lines 73-80); `if pid:` is
truthiness, as in `stop_server`. -/
def status_server (lsofOut : Option String) : List String :=
  match get_server_pid lsofOut with
  | none => ["❌ Server is not running"]
  | some pid =>
    if pid = 0 then ["❌ Server is not running"]
    else ["✅ Server is running (PID: " ++ toString pid ++ ")",
          "   URL: http://localhost:8080/"]

/-- The action `main` (manage_server.py lines 82-104) dispatches to. -/
inductive MgrCommand where
  | start
  | stop
  | restart
  | status
  | usage
  | unknown (c : String)
deriving DecidableEq

/-- `main` (manage_server.py lines 82-104): with no argument print usage
and exit 1; otherwise lowercase `sys.argv[1]` and switch on the result,
unrecognized strings taking the unknown-command exit path. -/
def main_dispatch (argv1 : Option String) : MgrCommand :=
  match argv1 with
  | none => MgrCommand.usage
  | some s =>
    let command := pyLower s
    if command = "start" then MgrCommand.start
    else if command = "stop" then MgrCommand.stop
    else if command = "restart" then MgrCommand.restart
    else if command = "status" then MgrCommand.status
    else MgrCommand.unknown command

/-! create_favicon.py -/

/-- Observable outcome of running `create_favicon.py` as a script. -/
inductive FaviconOutcome where
  | rendered (files : List String)
  | placeholder (file : String) (content : List Nat) (messages : List String)
  | uncaught (exc : String)
deriving DecidableEq

/-- The 14 header bytes written by the placeholder branch
(create_favicon.py line 70). -/
def icoPlaceholderHeader : List Nat :=
  [0x00, 0x00, 0x01, 0x00, 0x01, 0x00, 0x10, 0x10, 0x00, 0x00, 0x01, 0x00, 0x01, 0x00]

/-- The full placeholder file contents: header then 1000 zero bytes
(create_favicon.py lines 70-71). -/
def icoPlaceholderContent : List Nat :=
  icoPlaceholderHeader ++ List.replicate 1000 0

/-- The `except ImportError` branch of `__main__`
(create_favicon.py lines 66-73), taken in isolation. -/
def favicon_fallback : FaviconOutcome :=
  FaviconOutcome.placeholder "favicon.ico" icoPlaceholderContent
    ["Pillow library not installed. Creating a simple text file as placeholder.",
     "Created placeholder favicon.ico",
     "To create a proper favicon, install Pillow: pip install Pillow"]

/-- Whole-script behaviour of create_favicon.py as a function of whether
the Pillow library is importable.  The module-level
`from PIL import Image, ImageDraw, ImageFont` on line 6 executes before
the `__main__` block, so when Pillow is absent the `ImportError` is
raised outside any handler and propagates: the guarded re-import inside
the line-63 `try` is never reached and `favicon_fallback` never runs. -/
def create_favicon_script (pilAvailable : Bool) : FaviconOutcome :=
  if pilAvailable then
    FaviconOutcome.rendered ["favicon.ico", "favicon-32x32.png", "favicon-16x16.png"]
  else
    FaviconOutcome.uncaught "ImportError"

/-! Helper lemmas -/

/-- One-step unfolding of the port scan: attempt `P`, then scan from `P+1`
with one fewer attempt. -/
theorem find_available_port_succ (avail : Nat → Bool) (P n : Nat) :
    find_available_port avail P (n + 1) =
      if check_port_available avail P then some P
      else find_available_port avail (P + 1) n := by
  rw [find_available_port, List.range_succ_eq_map, List.findSome?_cons]
  cases h : check_port_available avail P with
  | true => simp [h]
  | false =>
    simp only [Nat.add_zero, h, Bool.false_eq_true, if_false]
    rw [List.findSome?_map, find_available_port]
    congr 1
    funext i
    have e : P + (i + 1) = P + 1 + i := by omega
    simp only [Function.comp_apply, e]

/-- Soundness of the scan: a returned port is available, lies in the
scanned window, and every earlier port in the window is unavailable. -/
theorem find_available_port_some (avail : Nat → Bool) :
    ∀ n P q, find_available_port avail P n = some q →
      avail q = true ∧ P ≤ q ∧ q < P + n ∧ ∀ r, P ≤ r → r < q → avail r = false := by
  intro n
  induction n with
  | zero => intro P q h; simp [find_available_port] at h
  | succ k ih =>
    intro P q h
    rw [find_available_port_succ] at h
    by_cases ha : check_port_available avail P = true
    · rw [if_pos ha] at h
      have hq : P = q := by simpa using h
      subst hq
      exact ⟨ha, Nat.le_refl P, by omega, fun r h1 h2 => absurd (Nat.lt_of_le_of_lt h1 h2) (by omega)⟩
    · rw [if_neg ha] at h
      obtain ⟨h1, h2, h3, h4⟩ := ih (P + 1) q h
      refine ⟨h1, by omega, by omega, ?_⟩
      intro r hr1 hr2
      rcases Nat.eq_or_lt_of_le hr1 with he | hl
      · rw [← he]
        rw [check_port_available] at ha
        exact Bool.not_eq_true _ ▸ (by simpa using ha)
      · exact h4 r (by omega) hr2

/-- Completeness, negative side: when every port in the window fails the
probe, the scan returns `none`. -/
theorem find_available_port_none (avail : Nat → Bool) :
    ∀ n P, (∀ i, i < n → avail (P + i) = false) → find_available_port avail P n = none := by
  intro n
  induction n with
  | zero => intro P _; rfl
  | succ k ih =>
    intro P h
    rw [find_available_port_succ]
    have h0 : avail P = false := by simpa using h 0 (by omega)
    rw [if_neg (by simp [check_port_available, h0])]
    refine ih (P + 1) ?_
    intro i hi
    have := h (i + 1) (by omega)
    have e : P + (i + 1) = P + 1 + i := by omega
    rwa [e] at this

/-- Completeness, positive side: when `P + i` is the first available port
of the window, the scan returns it. -/
theorem find_available_port_hit (avail : Nat → Bool) :
    ∀ n P i, i < n → avail (P + i) = true → (∀ j, j < i → avail (P + j) = false) →
      find_available_port avail P n = some (P + i) := by
  intro n
  induction n with
  | zero => intro P i hi; omega
  | succ k ih =>
    intro P i hi hav hmin
    rw [find_available_port_succ]
    cases i with
    | zero =>
      rw [if_pos (by simpa [check_port_available] using hav), Nat.add_zero]
    | succ j =>
      have h0 : avail P = false := by simpa using hmin 0 (by omega)
      rw [if_neg (by simp [check_port_available, h0])]
      have e : P + (j + 1) = P + 1 + j := by omega
      rw [e]
      refine ih (P + 1) j (by omega) (by rwa [e] at hav) ?_
      intro j2 hj2
      have := hmin (j2 + 1) (by omega)
      have e2 : P + (j2 + 1) = P + 1 + j2 := by omega
      rwa [e2] at this

/-- A path ending in `.html` does not end in `.js`. -/
theorem endswith_html_not_js (path : String) (h : endswith path ".html" = true) :
    endswith path ".js" = false := by
  rw [endswith] at h ⊢
  cases hjs : List.isSuffixOf ".js".data path.data with
  | false => rfl
  | true =>
    exfalso
    obtain ⟨t₁, ht₁⟩ := List.isSuffixOf_iff_suffix.mp hjs
    obtain ⟨t₂, ht₂⟩ := List.isSuffixOf_iff_suffix.mp h
    have a1 : path.data.getLast? = some 's' := by
      rw [← ht₁, List.getLast?_append_of_ne_nil t₁ (by decide)]
      rfl
    have a2 : path.data.getLast? = some 'l' := by
      rw [← ht₂, List.getLast?_append_of_ne_nil t₂ (by decide)]
      rfl
    rw [a1] at a2
    simp at a2

/-! Claim theorems -/

/-- C1: for every request (any path, any already-buffered headers that do
not themselves use the CORS header names), the response header list
produced by `end_headers` carries exactly the three fixed CORS headers
with their fixed values: filtering the response headers by each CORS name
yields precisely the one fixed pair. -/
theorem end_headers_cors_exact (path : String) (pending : List (String × String))
    (hp : ∀ h ∈ pending,
      h.1 ∉ (["Access-Control-Allow-Origin", "Access-Control-Allow-Methods",
              "Access-Control-Allow-Headers"] : List String)) :
    (end_headers path pending).filter (fun h => h.1 == "Access-Control-Allow-Origin")
        = [("Access-Control-Allow-Origin", "*")]
    ∧ (end_headers path pending).filter (fun h => h.1 == "Access-Control-Allow-Methods")
        = [("Access-Control-Allow-Methods", "GET, POST, OPTIONS")]
    ∧ (end_headers path pending).filter (fun h => h.1 == "Access-Control-Allow-Headers")
        = [("Access-Control-Allow-Headers", "Content-Type")] := by
  have hp2 : ∀ nm : String,
      nm ∈ (["Access-Control-Allow-Origin", "Access-Control-Allow-Methods",
              "Access-Control-Allow-Headers"] : List String) →
      pending.filter (fun h => h.1 == nm) = [] := by
    intro nm hnm
    refine List.filter_eq_nil_iff.mpr ?_
    intro a ha hbeq
    have e : a.1 = nm := by simpa using hbeq
    exact hp a ha (e ▸ hnm)
  have h1 := hp2 "Access-Control-Allow-Origin" (by decide)
  have h2 := hp2 "Access-Control-Allow-Methods" (by decide)
  have h3 := hp2 "Access-Control-Allow-Headers" (by decide)
  rw [end_headers]
  cases hjs : endswith path ".js" <;>
    exact ⟨by simp only [List.filter_append, h1, List.nil_append]; decide,
           by simp only [List.filter_append, h2, List.nil_append]; decide,
           by simp only [List.filter_append, h3, List.nil_append]; decide⟩

/-- Witness for C1 at a concrete request. -/
theorem end_headers_cors_exact_witness :
    (end_headers "/index.html" [("Content-Type", "text/html")]).filter
        (fun h => h.1 == "Access-Control-Allow-Origin")
        = [("Access-Control-Allow-Origin", "*")]
    ∧ (end_headers "/index.html" [("Content-Type", "text/html")]).filter
        (fun h => h.1 == "Access-Control-Allow-Methods")
        = [("Access-Control-Allow-Methods", "GET, POST, OPTIONS")]
    ∧ (end_headers "/index.html" [("Content-Type", "text/html")]).filter
        (fun h => h.1 == "Access-Control-Allow-Headers")
        = [("Access-Control-Allow-Headers", "Content-Type")] :=
  end_headers_cors_exact "/index.html" [("Content-Type", "text/html")] (by decide)

/-- C2 counterexample: the claim says no content-type override is applied
on OPTIONS for every request path, but an OPTIONS request for a path
ending in `.js` does get the override from `end_headers`. -/
theorem do_OPTIONS_js_override_counterexample :
    (do_OPTIONS "/app.js" []).status = 200
    ∧ (do_OPTIONS "/app.js" []).body = []
    ∧ ctOverride ∈ (do_OPTIONS "/app.js" []).headers := by
  decide

/-- C2 (amended): for every request path, an OPTIONS request returns
status 200 with an empty body, and the content-type override is applied
exactly for paths ending in `.js` (for any other path it is absent,
provided the base handler did not buffer it itself). -/
theorem do_OPTIONS_spec (path : String) (pending : List (String × String)) :
    (do_OPTIONS path pending).status = 200
    ∧ (do_OPTIONS path pending).body = []
    ∧ (endswith path ".js" = true → ctOverride ∈ (do_OPTIONS path pending).headers)
    ∧ (endswith path ".js" = false → ctOverride ∉ pending →
        ctOverride ∉ (do_OPTIONS path pending).headers) := by
  refine ⟨rfl, rfl, ?_, ?_⟩
  · intro hjs
    simp [do_OPTIONS, end_headers, hjs]
  · intro hjs hnp
    simp only [do_OPTIONS, end_headers, hjs, Bool.false_eq_true, if_false, List.append_nil]
    intro hmem
    rcases List.mem_append.mp hmem with h | h
    · exact hnp h
    · revert h
      decide

/-- Witness for C2 (amended) at concrete OPTIONS requests. -/
theorem do_OPTIONS_spec_witness :
    ctOverride ∈ (do_OPTIONS "/module.js" []).headers
    ∧ ctOverride ∉ (do_OPTIONS "/index.html" []).headers :=
  ⟨(do_OPTIONS_spec "/module.js" []).2.2.1 (by decide),
   (do_OPTIONS_spec "/index.html" []).2.2.2 (by decide) (by decide)⟩

/-- C3: every request whose path ends in `.js` gets the
`application/javascript` content-type override; a path ending in `.html`
does not get that override (given the base handler did not buffer the
same pair itself). -/
theorem js_html_content_type (path : String) (pending : List (String × String)) :
    (endswith path ".js" = true → ctOverride ∈ end_headers path pending)
    ∧ (endswith path ".html" = true → ctOverride ∉ pending →
        ctOverride ∉ end_headers path pending) := by
  constructor
  · intro hjs
    simp [end_headers, hjs]
  · intro hh hnp
    have hjs := endswith_html_not_js path hh
    simp only [end_headers, hjs, Bool.false_eq_true, if_false, List.append_nil]
    intro hmem
    rcases List.mem_append.mp hmem with h | h
    · exact hnp h
    · revert h
      decide

/-- Witness for C3 at concrete paths. -/
theorem js_html_content_type_witness :
    ctOverride ∈ end_headers "/app/main.js" []
    ∧ ctOverride ∉ end_headers "/page.html" [("Content-Type", "text/html")] :=
  ⟨(js_html_content_type "/app/main.js" []).1 (by decide),
   (js_html_content_type "/page.html" [("Content-Type", "text/html")]).2 (by decide) (by decide)⟩

/-- C4: for every start port and availability assignment,
`find_available_port` with the default 10 attempts returns the first
available port of the window `P..P+9` and `none` when all ten fail the
probe; in particular when only `P+7` is available it returns `P+7`. -/
theorem find_available_port_spec (avail : Nat → Bool) (P : Nat) :
    (∀ q, find_available_port avail P 10 = some q →
        avail q = true ∧ P ≤ q ∧ q < P + 10 ∧ ∀ r, P ≤ r → r < q → avail r = false)
    ∧ ((∀ i, i < 10 → avail (P + i) = false) → find_available_port avail P 10 = none)
    ∧ (avail (P + 7) = true → (∀ i, i < 10 → i ≠ 7 → avail (P + i) = false) →
        find_available_port avail P 10 = some (P + 7)) :=
  ⟨fun q h => find_available_port_some avail 10 P q h,
   fun h => find_available_port_none avail 10 P h,
   fun h7 hrest => find_available_port_hit avail 10 P 7 (by omega) h7
     (fun j hj => hrest j (by omega) (by omega))⟩

/-- Witness for C4: ports 8080..8089 all occupied except 8087. -/
theorem find_available_port_spec_witness :
    find_available_port (fun n => n == 8087) 8080 10 = some (8080 + 7) :=
  (find_available_port_spec (fun n => n == 8087) 8080).2.2 (by decide) (by decide)

/-- C5: in the conflict-resolution flow, when the operator chose `1` and
`kill_existing_server` reports failure, the flow behaves exactly as
choice `2`: it scans forward from `PORT+1` and serves on the first free
port found (never the occupied `PORT` itself), exiting only when the
whole window is occupied. -/
theorem conflict_choice1_fallback (rawChoice : String) (lsofOut : Option String)
    (killOk : Bool) (avail : Nat → Bool)
    (hc : pyStrip rawChoice = "1")
    (hk : kill_existing_server lsofOut killOk = false) :
    resolve_port_conflict rawChoice (kill_existing_server lsofOut killOk) avail
        = resolve_port_conflict "2" true avail
    ∧ resolve_port_conflict rawChoice (kill_existing_server lsofOut killOk) avail
        = (match find_available_port avail (PORT + 1) 10 with
           | some p => StartupOutcome.serve p
           | none => StartupOutcome.exitWithError)
    ∧ (∀ p, resolve_port_conflict rawChoice (kill_existing_server lsofOut killOk) avail
          = StartupOutcome.serve p → PORT < p) := by
  rw [hk]
  have e1 : resolve_port_conflict rawChoice false avail
      = (match find_available_port avail (PORT + 1) 10 with
         | some p => StartupOutcome.serve p
         | none => StartupOutcome.exitWithError) := by
    simp only [resolve_port_conflict, hc]
    simp
  have e2 : resolve_port_conflict "2" true avail
      = (match find_available_port avail (PORT + 1) 10 with
         | some p => StartupOutcome.serve p
         | none => StartupOutcome.exitWithError) := by
    have h2 : pyStrip "2" = "2" := by decide
    simp only [resolve_port_conflict, h2]
    simp
  refine ⟨e1.trans e2.symm, e1, ?_⟩
  intro p hp
  rw [e1] at hp
  cases hf : find_available_port avail (PORT + 1) 10 with
  | none => rw [hf] at hp; simp at hp
  | some q =>
    rw [hf] at hp
    simp only [StartupOutcome.serve.injEq] at hp
    have hb := (find_available_port_some avail 10 (PORT + 1) q hf).2.1
    omega

/-- Witness for C5 at a concrete failed kill. -/
theorem conflict_choice1_fallback_witness :
    resolve_port_conflict " 1 " (kill_existing_server none true) (fun _ => false)
      = resolve_port_conflict "2" true (fun _ => false) :=
  (conflict_choice1_fallback " 1 " none true (fun _ => false) (by decide) (by decide)).1

/-- C6 counterexample: when the lookup utility returns two identifiers
(two processes bound to the port), the claim says the first identifier
`123` is parsed as the owning PID, but `get_server_pid` parses the whole
output with `int(...)`, which raises and is caught, reporting no process
found instead. -/
theorem get_server_pid_multiline_counterexample :
    get_server_pid (some "123\n456") = none
    ∧ get_server_pid (some "123\n456") ≠ some 123 := by
  decide

/-- C6 (amended): discovery never raises; an absent or failing utility,
or output that strips to the empty string, reports no process found; any
PID it does report is the `int(...)` parse of the whole stripped output,
so a single identifier is returned as the owning PID while output that is
not one well-formed integer (for example two identifiers) also reports no
process found. -/
theorem get_server_pid_spec :
    get_server_pid none = none
    ∧ (∀ out, pyStrip out = "" → get_server_pid (some out) = none)
    ∧ (∀ out pid, get_server_pid (some out) = some pid →
        pyStrip out ≠ "" ∧ pyInt (pyStrip out) = some pid)
    ∧ get_server_pid (some "8123\n") = some 8123
    ∧ get_server_pid (some "123\n456") = none := by
  refine ⟨rfl, ?_, ?_, by decide, by decide⟩
  · intro out h
    simp [get_server_pid, h]
  · intro out pid h
    by_cases hs : pyStrip out = ""
    · simp [get_server_pid, hs] at h
    · rw [get_server_pid, if_pos hs] at h
      exact ⟨hs, h⟩

/-- Witness for C6 (amended) at concrete lookup outputs. -/
theorem get_server_pid_spec_witness :
    get_server_pid (some " \n ") = none
    ∧ (pyStrip "77" ≠ "" ∧ pyInt (pyStrip "77") = some 77) :=
  ⟨get_server_pid_spec.2.1 " \n " (by decide),
   get_server_pid_spec.2.2.1 "77" 77 (by decide)⟩

/-- C7: when discovery finds an existing owner of the port, `start_server`
launches no new process, sends no signal, leaves the discovered owner
unchanged, prints the already-running message, and returns failure. -/
theorem start_server_already_running (lsofBefore lsofAfter : Option String) (p : Int)
    (h : get_server_pid lsofBefore = some p) :
    (start_server lsofBefore lsofAfter).spawned = 0
    ∧ (start_server lsofBefore lsofAfter).ok = false
    ∧ (start_server lsofBefore lsofAfter).signals = []
    ∧ (start_server lsofBefore lsofAfter).ownerAfter = some p
    ∧ "❌ Server is already running on port 8080"
        ∈ (start_server lsofBefore lsofAfter).messages := by
  have hr : is_server_running lsofBefore = true := by
    simp [is_server_running, h]
  simp [start_server, hr, h]

/-- Witness for C7 with a concrete discovered owner. -/
theorem start_server_already_running_witness :
    (start_server (some "4242") none).spawned = 0
    ∧ (start_server (some "4242") none).ok = false
    ∧ (start_server (some "4242") none).signals = []
    ∧ (start_server (some "4242") none).ownerAfter = some 4242
    ∧ "❌ Server is already running on port 8080"
        ∈ (start_server (some "4242") none).messages :=
  start_server_already_running (some "4242") none 4242 (by decide)

/-- C8: when discovery finds no owner, `stop_server` sends no signal,
prints the not-running message, returns failure and spawns nothing; the
system state is untouched, so a subsequent `status` on the same
discovery output still reports not running. -/
theorem stop_server_not_running (lsofOut : Option String) (killOk : Bool)
    (h : get_server_pid lsofOut = none) :
    (stop_server lsofOut killOk).signals = []
    ∧ (stop_server lsofOut killOk).ok = false
    ∧ (stop_server lsofOut killOk).spawned = 0
    ∧ (stop_server lsofOut killOk).messages = ["❌ No server is running"]
    ∧ (stop_server lsofOut killOk).ownerAfter = none
    ∧ status_server lsofOut = ["❌ Server is not running"] := by
  simp [stop_server, status_server, h]

/-- Witness for C8 when the lookup utility reports nothing. -/
theorem stop_server_not_running_witness :
    (stop_server none true).signals = []
    ∧ (stop_server none true).ok = false
    ∧ (stop_server none true).spawned = 0
    ∧ (stop_server none true).messages = ["❌ No server is running"]
    ∧ (stop_server none true).ownerAfter = none
    ∧ status_server none = ["❌ Server is not running"] :=
  stop_server_not_running none true rfl

/-- C9 (code bug): the claim describes the intended fallback — a
caught import failure writing the 14-byte header plus 1000 zero bytes
(1014 bytes total) and exiting normally — and that intent is visible in the
`except ImportError` handler; but the unguarded module-level import on
line 6 of create_favicon.py runs first, so with Pillow absent the script
raises before `__main__` and the fallback (whose content would indeed be
exactly 1014 bytes) is never executed. -/
theorem favicon_import_failure_bug :
    create_favicon_script false = FaviconOutcome.uncaught "ImportError"
    ∧ favicon_fallback = FaviconOutcome.placeholder "favicon.ico" icoPlaceholderContent
        ["Pillow library not installed. Creating a simple text file as placeholder.",
         "Created placeholder favicon.ico",
         "To create a proper favicon, install Pillow: pip install Pillow"]
    ∧ icoPlaceholderHeader.length = 14
    ∧ icoPlaceholderContent.length = 1014
    ∧ icoPlaceholderContent = icoPlaceholderHeader ++ List.replicate 1000 0 := by
  refine ⟨rfl, rfl, rfl, ?_, rfl⟩
  rw [icoPlaceholderContent, List.length_append, List.length_replicate]
  decide

/-- C10: command dispatch is determined by the lowercased argument, so
mixed-case spellings dispatch like their lowercase forms, and exactly the
strings whose lowercase form is outside the four known commands take the
unknown-command exit path. -/
theorem main_dispatch_case_insensitive :
    (∀ s t : String, pyLower s = pyLower t →
        main_dispatch (some s) = main_dispatch (some t))
    ∧ main_dispatch (some "START") = MgrCommand.start
    ∧ main_dispatch (some "Stop") = MgrCommand.stop
    ∧ main_dispatch (some "ReStArT") = MgrCommand.restart
    ∧ (∀ s : String, (∃ c, main_dispatch (some s) = MgrCommand.unknown c) ↔
        pyLower s ∉ (["start", "stop", "restart", "status"] : List String)) := by
  refine ⟨?_, by decide, by decide, by decide, ?_⟩
  · intro s t h
    simp only [main_dispatch]
    rw [h]
  · intro s
    constructor
    · rintro ⟨c, hc⟩
      simp only [main_dispatch] at hc
      split_ifs at hc with h1 h2 h3 h4
      intro hm
      simp only [List.mem_cons, List.not_mem_nil, or_false] at hm
      rcases hm with h | h | h | h
      · exact h1 h
      · exact h2 h
      · exact h3 h
      · exact h4 h
    · intro hmem
      refine ⟨pyLower s, ?_⟩
      simp only [main_dispatch]
      split_ifs with h1 h2 h3 h4
      · exact absurd (by rw [h1]; decide) hmem
      · exact absurd (by rw [h2]; decide) hmem
      · exact absurd (by rw [h3]; decide) hmem
      · exact absurd (by rw [h4]; decide) hmem
      · rfl

/-- Witness for C10: two spellings with the same lowercase form dispatch
identically. -/
theorem main_dispatch_case_insensitive_witness :
    main_dispatch (some "START") = main_dispatch (some "start") :=
  main_dispatch_case_insensitive.1 "START" "start" (by decide)
